import Mathlib

/-!
Shallow embedding of the `lukechampine/upnp` repository (Go).

The repository has two packages:
* `internal/goupnp` — SSDP discovery, device-description parsing, the device
  tree walk that resolves WAN-connection services, and the SOAP action engine
  (`device.go`, `igd.go`, `soap.go`);
* `upnp` — the public wrapper (`upnp.go`): `Device`, `Forward`, `IsForwarded`,
  `Clear`, `Discover`, `Connect`.

Network I/O (HTTP transport, UDP sockets) and the Go `encoding/xml`
(de)serializer are not re-implemented: functions that consume their results
take those results as explicit parameters (`Except`-valued fetch/decode
outcomes, a list of already-parsed SSDP datagrams).  Everything after that
point is translated statement-by-statement from the Go source.
-/

/-- Go `strings.Contains`-style helper on lists: does `sub` occur as a
contiguous run inside `s`? -/
def listContains (s sub : List Char) : Bool :=
  s.tails.any fun t => sub.isPrefixOf t

/-- Embeds Go `strings.Contains s sub`. -/
def strContains (s sub : String) : Bool :=
  listContains s.data sub.data

namespace goupnp

/-- Go `Service` from `device.go`. -/
structure Service where
  ServiceType : String
  ControlURL : String
deriving DecidableEq, Repr

/-- Go `Device` from `device.go`: a node of the device tree. -/
inductive Device where
  | mk (DeviceType : String) (FriendlyName : String)
       (Services : List Service) (Devices : List Device)

def Device.Services : Device → List Service
  | .mk _ _ ss _ => ss

def Device.Devices : Device → List Device
  | .mk _ _ _ ds => ds

/-- Go `RootDevice` from `device.go` (the `XMLName` field only records the XML
root tag and carries no data, so it is omitted). -/
structure RootDevice where
  URLBase : String
  device : Device

/-- Go `IGDClient` from `igd.go`. -/
structure IGDClient where
  urlBase : String
  srv : Service
deriving DecidableEq, Repr

/-- Go `(IGDClient).Location` from `igd.go`. -/
def IGDClient.Location (igd : IGDClient) : String := igd.urlBase

/-- Go `(IGDClient).ServiceType` from `igd.go`. -/
def IGDClient.ServiceType (igd : IGDClient) : String := igd.srv.ServiceType

/-! ### SOAP action engine (`soap.go`) -/

/-- The `UPnPError` detail of a SOAP fault (`respEnvelope` in `soap.go`). -/
structure UPnPErrorDetail where
  Code : String
  Description : String
deriving DecidableEq, Repr

/-- The `detail` element of a SOAP fault; its `UPnPError` pointer may be nil. -/
structure FaultDetail where
  UPnPError : Option UPnPErrorDetail
deriving DecidableEq, Repr

/-- The `Fault` element of `respEnvelope`; the `Detail` pointer may be nil. -/
structure SOAPFault where
  FaultCode : String
  FaultString : String
  Detail : Option FaultDetail
deriving DecidableEq, Repr

/-- The decoded `respEnvelope` body: an optional `Fault` and the raw inner
XML of the action response (`RawAction`), kept as an uninterpreted string. -/
structure RespEnvelope where
  Fault : Option SOAPFault
  RawAction : String
deriving DecidableEq, Repr

/-- Outcome of `http.DefaultClient.Do` in `performSOAPAction`: a transport
error, or a response body. -/
inductive HTTPResult where
  | err (e : String)
  | ok (body : String)
deriving DecidableEq, Repr

/-- The response-handling half of `performSOAPAction` (`soap.go` lines
66–97), with the XML decoders passed in as parameters:

* a transport error is returned as-is;
* the body is decoded as a `respEnvelope` (`decodeEnv`); a decode failure is
  wrapped as `"invalid response body: …"`;
* if the envelope holds a `Fault` with a `UPnPError` detail, the error is
  `"UPnP error: <desc> (error code <code>)"`; a `Fault` without that detail
  yields `"SOAP fault: <faultstring>"`;
* otherwise, when a response structure was supplied (`decodeResp ≠ none`),
  `RawAction` is unmarshalled into it; decode failure is again
  `"invalid response body: …"`.

`.ok none` is Go's `resp == nil` fire-and-forget success; `.ok (some v)` is a
success that filled the caller's response structure. -/
def performSOAPAction {ρ : Type} (decodeEnv : String → Except String RespEnvelope)
    (decodeResp : Option (String → Except String ρ)) (r : HTTPResult) :
    Except String (Option ρ) :=
  match r with
  | .err e => .error e
  | .ok body =>
    match decodeEnv body with
    | .error e => .error ("invalid response body: " ++ e)
    | .ok env =>
      match env.Fault with
      | some f =>
        match f.Detail with
        | none => .error ("SOAP fault: " ++ f.FaultString)
        | some d =>
          match d.UPnPError with
          | none => .error ("SOAP fault: " ++ f.FaultString)
          | some e =>
            .error ("UPnP error: " ++ e.Description ++ " (error code " ++ e.Code ++ ")")
      | none =>
        match decodeResp with
        | none => .ok none
        | some dec =>
          match dec env.RawAction with
          | .error e => .error ("invalid response body: " ++ e)
          | .ok v => .ok (some v)

/-! ### Device description fetch (`device.go` / `DeviceByURL`) -/

/-- Outcome of the HTTP GET in `DeviceByURL`: a transport failure, or a
response with a status code and a body. -/
inductive HTTPResponse where
  | failure (e : String)
  | success (status : Nat) (body : String)
deriving DecidableEq, Repr

/-- Go `DeviceByURL` (`device.go` lines 35–57), with the HTTP fetch outcome and
the XML decoder passed in as parameters:

* a transport error is returned as-is;
* a non-200 status returns the body verbatim as the error;
* an XML decode failure is wrapped as `"invalid response body: …"`;
* if the decoded root's `URLBase` is empty it is set to the request URL. -/
def DeviceByURL (decode : String → Except String RootDevice) (url : String)
    (r : HTTPResponse) : Except String RootDevice :=
  match r with
  | .failure e => .error e
  | .success status body =>
    if status ≠ 200 then .error body
    else
      match decode body with
      | .error e => .error ("invalid response body: " ++ e)
      | .ok root =>
        .ok (if root.URLBase = "" then { root with URLBase := url } else root)

/-! ### Service resolution (`igd.go` / `IGDClientsByURL`) -/

/-- The `switch srv.ServiceType` test inside `IGDClientsByURL`'s `visit`
closure: the three WAN connection service types that are collected. -/
def isWANConnectionService (st : String) : Bool :=
  st == "urn:schemas-upnp-org:service:WANPPPConnection:1" ||
  st == "urn:schemas-upnp-org:service:WANIPConnection:1" ||
  st == "urn:schemas-upnp-org:service:WANIPConnection:2"

mutual
/-- The `visit` closure of `IGDClientsByURL` (`igd.go` lines 97–110): collect
this device's matching services, then recurse into its child devices.  The Go
closure appends to a shared slice; here the appends are made explicit. -/
def visit (urlBase : String) : Device → List IGDClient
  | .mk _ _ services devices =>
    services.filterMap
      (fun srv => if isWANConnectionService srv.ServiceType
                  then some (IGDClient.mk urlBase srv) else none)
      ++ visitList urlBase devices
def visitList (urlBase : String) : List Device → List IGDClient
  | [] => []
  | d :: ds => visit urlBase d ++ visitList urlBase ds
end

mutual
/-- All services of a device tree in pre-order (a device's own services
before any of its children's), used to state properties of `visit`. -/
def preorderServices : Device → List Service
  | .mk _ _ services devices => services ++ preorderServicesList devices
def preorderServicesList : List Device → List Service
  | [] => []
  | d :: ds => preorderServices d ++ preorderServicesList ds
end

/-- Go `IGDClientsByURL` (`igd.go` lines 90–113): fetch and decode the device
description, then walk the tree. -/
def IGDClientsByURL (decode : String → Except String RootDevice) (url : String)
    (r : HTTPResponse) : Except String (List IGDClient) :=
  match DeviceByURL decode url r with
  | .error e => .error e
  | .ok rd => .ok (visit rd.URLBase rd.device)

/-! ### SSDP response processing (`SSDP` read loop, `device.go` / unnamed
`part_003` lines 94–122) -/

/-- One received datagram, as seen after `http.ReadResponse`:
`malformed` stands for a packet that fails to parse as an HTTP response;
otherwise we record the status code, the optional `LOCATION` header (Go's
`response.Location()` errors when the header is absent), and the `USN`
header (`Header.Get` returns `""` both for an absent and an empty header). -/
inductive Datagram where
  | malformed
  | response (status : Nat) (location : Option String) (usn : String)
deriving DecidableEq, Repr

/-- The per-datagram validation of the SSDP read loop: `none` when the
datagram is skipped (`continue`); otherwise the deduplication key (the `USN`
header, falling back to the location when the `USN` is empty) together with
the location string that would be emitted. -/
def datagramKeyLoc : Datagram → Option (String × String)
  | .malformed => none
  | .response status location usn =>
    if status ≠ 200 then none
    else
      match location with
      | none => none
      | some loc => some (if usn = "" then loc else usn, loc)

/-- The SSDP read loop with the `seen` set made explicit (a list of keys) and
the received datagrams passed as a list: each valid datagram whose key is not
yet in `seen` emits its `(key, location)` pair and marks the key seen.  The
Go code sends only the location; `SSDPLocations` projects that out. -/
def ssdpLoop : List String → List Datagram → List (String × String)
  | _, [] => []
  | seen, d :: ds =>
    match datagramKeyLoc d with
    | none => ssdpLoop seen ds
    | some (k, loc) =>
      if k ∈ seen then ssdpLoop seen ds
      else (k, loc) :: ssdpLoop (k :: seen) ds

/-- The list of locations collected by one SSDP run over `ds`. -/
def SSDPLocations (ds : List Datagram) : List String :=
  (ssdpLoop [] ds).map Prod.snd

end goupnp

namespace upnp

/-- Go `Device` from `upnp.go`. -/
structure Device where
  internalIP : String
  client : goupnp.IGDClient
deriving DecidableEq, Repr

/-! ### Port-mapping request/response records (`igd.go`).
Ports are `Nat`s (Go `uint16`; no arithmetic is ever performed on them) and
`NewLeaseDuration` is a `Nat` (Go `uint32`). -/

structure AddPortMappingRequest where
  NewRemoteHost : String
  NewExternalPort : Nat
  NewProtocol : String
  NewInternalPort : Nat
  NewInternalClient : String
  NewEnabled : Bool
  NewPortMappingDescription : String
  NewLeaseDuration : Nat
deriving DecidableEq, Repr

structure GetSpecificPortMappingEntryResponse where
  NewInternalPort : Nat
  NewInternalClient : String
  NewEnabled : Bool
  NewPortMappingDescription : String
  NewLeaseDuration : String
deriving DecidableEq, Repr

/-- The Go zero value of `GetSpecificPortMappingEntryResponse`: what the
caller's `resp` variable holds when `performSOAPAction` fails before (or
instead of) unmarshalling into it. -/
def zeroGetSpecificPortMappingEntryResponse : GetSpecificPortMappingEntryResponse :=
  { NewInternalPort := 0, NewInternalClient := "", NewEnabled := false,
    NewPortMappingDescription := "", NewLeaseDuration := "" }

/-- Go `(IGDClient).GetSpecificPortMappingEntry` (`igd.go` lines 51–54)
composed with `performSOAPAction`'s response handling, modelled at the level
of the caller's `resp` variable: the pair of the value `resp` holds after
the call and the returned error.  Go's `xml.Unmarshal` mutates the target
struct in place and returns an optional error, so the unmarshal step is a
parameter `unmarshal : String → struct-state × Option error` (starting from
the zero value): on failure the struct keeps every field decoded before the
failing element — it may be partially populated.  The transport,
envelope-decode and fault paths all return before unmarshalling, leaving
`resp` at the zero value. -/
def getSpecificPortMappingEntry
    (decodeEnv : String → Except String goupnp.RespEnvelope)
    (unmarshal : String → GetSpecificPortMappingEntryResponse × Option String)
    (r : goupnp.HTTPResult) :
    GetSpecificPortMappingEntryResponse × Option String :=
  match r with
  | .err e => (zeroGetSpecificPortMappingEntryResponse, some e)
  | .ok body =>
    match decodeEnv body with
    | .error e =>
      (zeroGetSpecificPortMappingEntryResponse, some ("invalid response body: " ++ e))
    | .ok env =>
      match env.Fault with
      | some f =>
        match f.Detail with
        | none =>
          (zeroGetSpecificPortMappingEntryResponse, some ("SOAP fault: " ++ f.FaultString))
        | some d =>
          match d.UPnPError with
          | none =>
            (zeroGetSpecificPortMappingEntryResponse, some ("SOAP fault: " ++ f.FaultString))
          | some e =>
            (zeroGetSpecificPortMappingEntryResponse,
              some ("UPnP error: " ++ e.Description ++ " (error code " ++ e.Code ++ ")"))
      | none =>
        match unmarshal env.RawAction with
        | (resp, none) => (resp, none)
        | (resp, some e) => (resp, some ("invalid response body: " ++ e))

/-- Go `(Device).Forward` (`upnp.go` lines 24–34), modelled as the
`AddPortMappingRequest` it passes to `AddPortMapping`.  `NewRemoteHost` is
not mentioned in the Go composite literal, so it is the zero value `""`. -/
def Forward (d : Device) (port : Nat) (proto : String) (desc : String) :
    AddPortMappingRequest :=
  { NewRemoteHost := ""
    NewExternalPort := port
    NewProtocol := proto
    NewInternalPort := port
    NewInternalClient := d.internalIP
    NewEnabled := true
    NewPortMappingDescription := desc
    NewLeaseDuration := 0 }

/-- Go `(Device).IsForwarded` (`upnp.go` lines 37–43), with the outcome of
the `GetSpecificPortMappingEntry` query passed in: the error is discarded
(`resp, _ :=`), and the result is
`resp.NewEnabled && resp.NewInternalClient == d.internalIP` computed on
whatever `resp` the query left behind. -/
def IsForwarded (d : Device)
    (query : GetSpecificPortMappingEntryResponse × Option String) : Bool :=
  query.1.NewEnabled && query.1.NewInternalClient == d.internalIP

/-- Go `(Device).Clear` (`upnp.go` lines 46–55), with the `DeletePortMapping`
outcome passed in (`none` = nil error, `some e` = error with message `e`):
an error whose message contains `"NoSuchEntryInArray"` is replaced by nil. -/
def Clear (deleteResult : Option String) : Option String :=
  match deleteResult with
  | none => none
  | some e => if strContains e "NoSuchEntryInArray" then none else some e

/-! ### `Discover` ordering (`upnp.go` lines 115–122) -/

/-- The `strings.Contains(·, "WANIP")` test of `Discover`'s comparator,
applied to a device's service type. -/
def hasWANIP (d : Device) : Bool :=
  strContains d.client.ServiceType "WANIP"

/-- The `less` comparator passed to `sort.Slice` in `Discover`
(`upnp.go` lines 116–122): when both service types agree on containing
`"WANIP"`, compare them lexicographically; otherwise the `"WANIP"` one is
smaller. -/
def discoverLess (a b : Device) : Prop :=
  if hasWANIP a = hasWANIP b then a.client.ServiceType < b.client.ServiceType
  else hasWANIP a = true

instance : DecidableRel discoverLess := fun a b => by
  unfold discoverLess; infer_instance

/-- The non-strict counterpart of `discoverLess`; `sort.Slice` guarantees its
output is pairwise ordered by this relation. -/
def discoverLE (a b : Device) : Prop := ¬ discoverLess b a

instance : DecidableRel discoverLE := fun a b => by
  unfold discoverLE; infer_instance

/-- The `sort.Slice(devices, less)` call of `Discover`.  Go's `sort.Slice`
uses an unspecified sorting algorithm; we embed it as insertion sort, which
produces a permutation of the input pairwise ordered by `discoverLE`,
exactly the guarantee `sort.Slice` gives for a strict-weak-order `less`. -/
def sortDevices (l : List Device) : List Device :=
  List.insertionSort discoverLE l

/-- Go `Discover` (`upnp.go` lines 104–124), with the discovered clients and the
`getInternalIP` outcome passed in: clients whose location cannot be matched
to a local interface are dropped, the rest are wrapped as `Device`s and
sorted by the WANIP-preferring comparator. -/
def Discover (getInternalIP : String → Except String String)
    (clients : List goupnp.IGDClient) : List Device :=
  sortDevices (clients.filterMap fun c =>
    match getInternalIP c.Location with
    | .ok ip => some (Device.mk ip c)
    | .error _ => none)

/-- Go `Connect` (`upnp.go` lines 128–144), with the fetch/decode outcome and
`getInternalIP` passed in.  Go's `len(clients) == 0` / `len(clients) > 1`
checks become the `[]` pattern and the `rest.length > 0` test. -/
def Connect (decode : String → Except String goupnp.RootDevice)
    (getInternalIP : String → Except String String)
    (deviceURL : String) (r : goupnp.HTTPResponse) : Except String Device :=
  match goupnp.IGDClientsByURL decode deviceURL r with
  | .error e => .error e
  | .ok [] => .error ("no UPnP-enabled gateway found at " ++ deviceURL)
  | .ok (c :: rest) =>
    if rest.length > 0 then
      .error ("multiple UPnP-enabled gateways found at " ++ deviceURL)
    else
      match getInternalIP c.Location with
      | .error e => .error e
      | .ok ip => .ok (Device.mk ip c)

end upnp

/-! ## Helper lemmas -/

/-- A list that occurs as a contiguous middle run is found by `listContains`. -/
theorem listContains_middle (a sub b : List Char) :
    listContains (a ++ sub ++ b) sub = true := by
  unfold listContains
  rw [List.any_eq_true]
  refine ⟨sub ++ b, ?_, ?_⟩
  · rw [List.mem_tails]
    exact ⟨a, by simp⟩
  · rw [ List.isPrefixOf_iff_prefix]
    exact ⟨b, rfl⟩

/-- A string that occurs as a contiguous middle run is found by
`strContains`. -/
theorem strContains_middle (a sub b : String) :
    strContains (a ++ sub ++ b) sub = true := by
  unfold strContains
  rw [String.data_append, String.data_append]
  exact listContains_middle a.data sub.data b.data

/-- A `filterMap` with an if-then-else body is filter-then-map. -/
theorem filterMap_ite_eq_filter_map {α β : Type} (p : α → Bool) (g : α → β) :
    ∀ l : List α,
      (l.filterMap fun a => if p a then some (g a) else none) = (l.filter p).map g
  | [] => rfl
  | a :: l => by
    by_cases h : p a = true <;>
      simp [List.filterMap_cons, List.filter_cons, h, filterMap_ite_eq_filter_map p g l]

/-! ## C10: the fields of the `AddPortMapping` request built by `Forward` -/

/-- C10: every `Forward(port, proto, desc)` call builds an `AddPortMapping`
request whose `NewInternalPort` equals the external port, whose
`NewInternalClient` is the device's recorded internal IP, with
`NewEnabled = true`, `NewLeaseDuration = 0` (permanent mapping) and an empty
`NewRemoteHost`. -/
theorem Forward_request_fields (d : upnp.Device) (port : Nat) (proto desc : String) :
    (upnp.Forward d port proto desc).NewInternalPort = port ∧
    (upnp.Forward d port proto desc).NewExternalPort = port ∧
    (upnp.Forward d port proto desc).NewInternalClient = d.internalIP ∧
    (upnp.Forward d port proto desc).NewEnabled = true ∧
    (upnp.Forward d port proto desc).NewLeaseDuration = 0 ∧
    (upnp.Forward d port proto desc).NewRemoteHost = "" :=
  ⟨rfl, rfl, rfl, rfl, rfl, rfl⟩

/-! ## C9: `IsForwarded` discards the query error -/

/-- C9 counterexample: a response-unmarshal error does not leave the
zero-valued response, so a failed query can report `true`.  The unmarshaller
here models `encoding/xml` on a 200 SOAP response whose action body carries
`NewEnabled` and a matching `NewInternalClient` before a non-numeric
`NewInternalPort` element: the first two fields are set in document order,
then the integer conversion fails.  `GetSpecificPortMappingEntry` returns
that error wrapped as `"invalid response body: …"`, yet `IsForwarded` —
which discards the error — returns `true`, contradicting the claim that on
any decode error the zero-valued response makes it return `false`. -/
theorem IsForwarded_decode_error_true :
    (upnp.getSpecificPortMappingEntry
        (fun _ => .ok (goupnp.RespEnvelope.mk none "<raw/>"))
        (fun _ =>
          (upnp.GetSpecificPortMappingEntryResponse.mk 0 "192.168.1.2" true "" "",
           some "strconv.ParseUint failure on NewInternalPort"))
        (.ok "body")).2 =
      some ("invalid response body: " ++ "strconv.ParseUint failure on NewInternalPort") ∧
    upnp.IsForwarded
      (upnp.Device.mk "192.168.1.2" (goupnp.IGDClient.mk "u" (goupnp.Service.mk "t" "c")))
      (upnp.getSpecificPortMappingEntry
        (fun _ => .ok (goupnp.RespEnvelope.mk none "<raw/>"))
        (fun _ =>
          (upnp.GetSpecificPortMappingEntryResponse.mk 0 "192.168.1.2" true "" "",
           some "strconv.ParseUint failure on NewInternalPort"))
        (.ok "body")) = true :=
  ⟨rfl, rfl⟩

/-- C9 (amended): `IsForwarded` returns `true` iff the `resp` the query left
behind has `NewEnabled` and `NewInternalClient` equal to the device's
recorded internal IP, the query's error being discarded.  On transport,
envelope-decode and fault errors — the paths that return before
unmarshalling — `resp` is the zero value and the result is `false`; on the
unmarshal path `resp` is whatever the unmarshaller left, which on failure
may be partially populated, so a response-unmarshal error need not read as
"not forwarded". -/
theorem IsForwarded_partial_resp (d : upnp.Device)
    (decodeEnv : String → Except String goupnp.RespEnvelope)
    (unmarshal : String → upnp.GetSpecificPortMappingEntryResponse × Option String) :
    (∀ q, upnp.IsForwarded d q = true ↔
      q.1.NewEnabled = true ∧ q.1.NewInternalClient = d.internalIP) ∧
    (∀ e, upnp.getSpecificPortMappingEntry decodeEnv unmarshal (.err e) =
        (upnp.zeroGetSpecificPortMappingEntryResponse, some e) ∧
      upnp.IsForwarded d
        (upnp.getSpecificPortMappingEntry decodeEnv unmarshal (.err e)) = false) ∧
    (∀ body e, decodeEnv body = .error e →
      upnp.getSpecificPortMappingEntry decodeEnv unmarshal (.ok body) =
        (upnp.zeroGetSpecificPortMappingEntryResponse,
          some ("invalid response body: " ++ e)) ∧
      upnp.IsForwarded d
        (upnp.getSpecificPortMappingEntry decodeEnv unmarshal (.ok body)) = false) ∧
    (∀ body env f, decodeEnv body = .ok env → env.Fault = some f →
      (upnp.getSpecificPortMappingEntry decodeEnv unmarshal (.ok body)).1 =
        upnp.zeroGetSpecificPortMappingEntryResponse ∧
      upnp.IsForwarded d
        (upnp.getSpecificPortMappingEntry decodeEnv unmarshal (.ok body)) = false) ∧
    (∀ body env, decodeEnv body = .ok env → env.Fault = none →
      (upnp.getSpecificPortMappingEntry decodeEnv unmarshal (.ok body)).1 =
        (unmarshal env.RawAction).1) := by
  refine ⟨?_, ?_, ?_, ?_, ?_⟩
  · intro q
    simp [upnp.IsForwarded, Bool.and_eq_true, beq_iff_eq]
  · intro e
    refine ⟨rfl, ?_⟩
    simp [upnp.IsForwarded, upnp.getSpecificPortMappingEntry,
      upnp.zeroGetSpecificPortMappingEntryResponse]
  · intro body e hdec
    refine ⟨?_, ?_⟩ <;>
      simp [upnp.IsForwarded, upnp.getSpecificPortMappingEntry, hdec,
        upnp.zeroGetSpecificPortMappingEntryResponse]
  · intro body env f hdec hf
    have hz : (upnp.getSpecificPortMappingEntry decodeEnv unmarshal (.ok body)).1 =
        upnp.zeroGetSpecificPortMappingEntryResponse := by
      simp only [upnp.getSpecificPortMappingEntry, hdec, hf]
      rcases f.Detail with _ | d
      · rfl
      · cases hU : d.UPnPError <;> simp [hU]
    refine ⟨hz, ?_⟩
    simp [upnp.IsForwarded, hz, upnp.zeroGetSpecificPortMappingEntryResponse]
  · intro body env hdec hf
    simp only [upnp.getSpecificPortMappingEntry, hdec, hf]
    cases hu : unmarshal env.RawAction with
    | mk resp err => cases err <;> simp

/-- Witness for C9 (amended) at a concrete device with a fault response,
discharging the envelope-decode hypotheses concretely. -/
theorem IsForwarded_partial_resp_witness :
    (∀ q, upnp.IsForwarded
        (upnp.Device.mk "192.168.1.2" (goupnp.IGDClient.mk "u" (goupnp.Service.mk "t" "c")))
        q = true ↔
      q.1.NewEnabled = true ∧ q.1.NewInternalClient = "192.168.1.2") ∧
    (∀ e, upnp.getSpecificPortMappingEntry
        (fun _ => .ok (goupnp.RespEnvelope.mk none "<raw/>"))
        (fun _ => (upnp.zeroGetSpecificPortMappingEntryResponse, none)) (.err e) =
        (upnp.zeroGetSpecificPortMappingEntryResponse, some e) ∧
      upnp.IsForwarded
        (upnp.Device.mk "192.168.1.2" (goupnp.IGDClient.mk "u" (goupnp.Service.mk "t" "c")))
        (upnp.getSpecificPortMappingEntry
          (fun _ => .ok (goupnp.RespEnvelope.mk none "<raw/>"))
          (fun _ => (upnp.zeroGetSpecificPortMappingEntryResponse, none)) (.err e)) = false) ∧
    (∀ body e, (fun (_ : String) =>
        (Except.ok (goupnp.RespEnvelope.mk none "<raw/>") :
          Except String goupnp.RespEnvelope)) body = .error e →
      upnp.getSpecificPortMappingEntry
        (fun _ => .ok (goupnp.RespEnvelope.mk none "<raw/>"))
        (fun _ => (upnp.zeroGetSpecificPortMappingEntryResponse, none)) (.ok body) =
        (upnp.zeroGetSpecificPortMappingEntryResponse,
          some ("invalid response body: " ++ e)) ∧
      upnp.IsForwarded
        (upnp.Device.mk "192.168.1.2" (goupnp.IGDClient.mk "u" (goupnp.Service.mk "t" "c")))
        (upnp.getSpecificPortMappingEntry
          (fun _ => .ok (goupnp.RespEnvelope.mk none "<raw/>"))
          (fun _ => (upnp.zeroGetSpecificPortMappingEntryResponse, none)) (.ok body)) = false) ∧
    (∀ body env f, (fun (_ : String) =>
        (Except.ok (goupnp.RespEnvelope.mk none "<raw/>") :
          Except String goupnp.RespEnvelope)) body = .ok env →
      env.Fault = some f →
      (upnp.getSpecificPortMappingEntry
        (fun _ => .ok (goupnp.RespEnvelope.mk none "<raw/>"))
        (fun _ => (upnp.zeroGetSpecificPortMappingEntryResponse, none)) (.ok body)).1 =
        upnp.zeroGetSpecificPortMappingEntryResponse ∧
      upnp.IsForwarded
        (upnp.Device.mk "192.168.1.2" (goupnp.IGDClient.mk "u" (goupnp.Service.mk "t" "c")))
        (upnp.getSpecificPortMappingEntry
          (fun _ => .ok (goupnp.RespEnvelope.mk none "<raw/>"))
          (fun _ => (upnp.zeroGetSpecificPortMappingEntryResponse, none)) (.ok body)) = false) ∧
    (∀ body env, (fun (_ : String) =>
        (Except.ok (goupnp.RespEnvelope.mk none "<raw/>") :
          Except String goupnp.RespEnvelope)) body = .ok env →
      env.Fault = none →
      (upnp.getSpecificPortMappingEntry
        (fun _ => .ok (goupnp.RespEnvelope.mk none "<raw/>"))
        (fun _ => (upnp.zeroGetSpecificPortMappingEntryResponse, none)) (.ok body)).1 =
        ((fun (_ : String) =>
          (upnp.zeroGetSpecificPortMappingEntryResponse,
            (none : Option String))) env.RawAction).1) :=
  IsForwarded_partial_resp
    (upnp.Device.mk "192.168.1.2" (goupnp.IGDClient.mk "u" (goupnp.Service.mk "t" "c")))
    (fun _ => .ok (goupnp.RespEnvelope.mk none "<raw/>"))
    (fun _ => (upnp.zeroGetSpecificPortMappingEntryResponse, none))

/-! ## C5: `Clear` is idempotent on "no such entry" faults -/

/-- C5: `Clear` returns no error when the delete succeeded or when the error
message contains `"NoSuchEntryInArray"`; any other error is returned
unchanged. -/
theorem Clear_no_such_entry :
    upnp.Clear none = none ∧
    (∀ e, strContains e "NoSuchEntryInArray" = true → upnp.Clear (some e) = none) ∧
    (∀ e, strContains e "NoSuchEntryInArray" = false → upnp.Clear (some e) = some e) := by
  refine ⟨rfl, ?_, ?_⟩ <;> intro e h <;> simp [upnp.Clear, h]

/-- Witness for C5: a genuine `NoSuchEntryInArray` fault message is absorbed,
a different fault message is passed through. -/
theorem Clear_no_such_entry_witness :
    upnp.Clear (some "UPnP error: NoSuchEntryInArray (error code 714)") = none ∧
    upnp.Clear (some "UPnP error: Invalid Args (error code 402)") =
      some "UPnP error: Invalid Args (error code 402)" :=
  ⟨Clear_no_such_entry.2.1 _ (by decide), Clear_no_such_entry.2.2 _ (by decide)⟩

/-! ## C3: `DeviceByURL`'s `URLBase` fallback -/

/-- C3: on a successful fetch (status 200) and decode, `DeviceByURL` returns
the decoded root with `URLBase` replaced by the request URL exactly when the
document's `URLBase` was empty, and kept unchanged otherwise; the device
tree is unchanged in both cases. -/
theorem DeviceByURL_urlBase (decode : String → Except String goupnp.RootDevice)
    (url body : String) (root : goupnp.RootDevice)
    (hdec : decode body = .ok root) :
    ∃ res, goupnp.DeviceByURL decode url (.success 200 body) = .ok res ∧
      res.URLBase = (if root.URLBase = "" then url else root.URLBase) ∧
      res.device = root.device := by
  refine ⟨if root.URLBase = "" then { root with URLBase := url } else root, ?_, ?_, ?_⟩
  · simp [goupnp.DeviceByURL, hdec]
  · split <;> rfl
  · split <;> rfl

/-- Witness for C3 at a document with empty `URLBase`. -/
theorem DeviceByURL_urlBase_witness :
    ∃ res, goupnp.DeviceByURL
        (fun _ => .ok (goupnp.RootDevice.mk "" (goupnp.Device.mk "dt" "fn" [] [])))
        "http://192.168.1.1:5000/rootDesc.xml" (.success 200 "<root/>") = .ok res ∧
      res.URLBase =
        (if ("" : String) = "" then "http://192.168.1.1:5000/rootDesc.xml" else "") ∧
      res.device = goupnp.Device.mk "dt" "fn" [] [] :=
  DeviceByURL_urlBase _ "http://192.168.1.1:5000/rootDesc.xml" "<root/>"
    (goupnp.RootDevice.mk "" (goupnp.Device.mk "dt" "fn" [] [])) rfl

/-- The test `strContains` holds whenever the needle's characters occur as a middle
run of the haystack's characters. -/
theorem strContains_of_data (s sub : String) (a b : List Char)
    (h : s.data = a ++ sub.data ++ b) : strContains s sub = true := by
  unfold strContains
  rw [h]
  exact listContains_middle a sub.data b

/-! ## C1: SOAP fault handling in `performSOAPAction` -/

/-- C1: when the HTTP 200 response decodes to an envelope containing a
`Fault`, `performSOAPAction` returns an error and never a decoded response;
with a UPnP error detail the error message contains both the numeric code
and the description, and without one the raw SOAP fault string is
returned. -/
theorem performSOAPAction_fault {ρ : Type}
    (decodeEnv : String → Except String goupnp.RespEnvelope)
    (decodeResp : Option (String → Except String ρ))
    (body : String) (env : goupnp.RespEnvelope) (f : goupnp.SOAPFault)
    (hdec : decodeEnv body = .ok env) (hf : env.Fault = some f) :
    (∀ d e, f.Detail = some d → d.UPnPError = some e →
      goupnp.performSOAPAction decodeEnv decodeResp (.ok body) =
        .error ("UPnP error: " ++ e.Description ++ " (error code " ++ e.Code ++ ")") ∧
      strContains ("UPnP error: " ++ e.Description ++ " (error code " ++ e.Code ++ ")")
        e.Code = true ∧
      strContains ("UPnP error: " ++ e.Description ++ " (error code " ++ e.Code ++ ")")
        e.Description = true) ∧
    ((f.Detail = none ∨ ∃ d, f.Detail = some d ∧ d.UPnPError = none) →
      goupnp.performSOAPAction decodeEnv decodeResp (.ok body) =
        .error ("SOAP fault: " ++ f.FaultString)) ∧
    (∀ v : Option ρ, goupnp.performSOAPAction decodeEnv decodeResp (.ok body) ≠ .ok v) := by
  refine ⟨?_, ?_, ?_⟩
  · intro d e hd he
    refine ⟨?_, ?_, ?_⟩
    · simp [goupnp.performSOAPAction, hdec, hf, hd, he]
    · exact strContains_of_data _ _
        ("UPnP error: " ++ e.Description ++ " (error code ").data (")").data
        (by simp [String.data_append, List.append_assoc])
    · exact strContains_of_data _ _
        ("UPnP error: ").data (" (error code " ++ e.Code ++ ")").data
        (by simp [String.data_append, List.append_assoc])
  · rintro (hd | ⟨d, hd, hde⟩)
    · simp [goupnp.performSOAPAction, hdec, hf, hd]
    · simp [goupnp.performSOAPAction, hdec, hf, hd, hde]
  · intro v
    simp only [goupnp.performSOAPAction, hdec, hf]
    rcases f.Detail with _ | d
    · simp
    · cases hU : d.UPnPError <;> simp [hU]

/-- Witness for C1 at a concrete envelope carrying a UPnP error detail and
at one carrying a detail-free fault. -/
theorem performSOAPAction_fault_witness :
    (∀ d e,
      (goupnp.SOAPFault.mk "s:Client" "UPnPError"
        (some (goupnp.FaultDetail.mk
          (some (goupnp.UPnPErrorDetail.mk "402" "Invalid Args"))))).Detail = some d →
      d.UPnPError = some e →
      goupnp.performSOAPAction
        (fun _ => .ok (goupnp.RespEnvelope.mk
          (some (goupnp.SOAPFault.mk "s:Client" "UPnPError"
            (some (goupnp.FaultDetail.mk
              (some (goupnp.UPnPErrorDetail.mk "402" "Invalid Args")))))) ""))
        (none : Option (String → Except String Unit)) (.ok "b") =
        .error ("UPnP error: " ++ e.Description ++ " (error code " ++ e.Code ++ ")") ∧
      strContains ("UPnP error: " ++ e.Description ++ " (error code " ++ e.Code ++ ")")
        e.Code = true ∧
      strContains ("UPnP error: " ++ e.Description ++ " (error code " ++ e.Code ++ ")")
        e.Description = true) ∧
    (((goupnp.SOAPFault.mk "s:Client" "UPnPError"
        (some (goupnp.FaultDetail.mk
          (some (goupnp.UPnPErrorDetail.mk "402" "Invalid Args"))))).Detail = none ∨
      ∃ d, (goupnp.SOAPFault.mk "s:Client" "UPnPError"
        (some (goupnp.FaultDetail.mk
          (some (goupnp.UPnPErrorDetail.mk "402" "Invalid Args"))))).Detail = some d ∧
        d.UPnPError = none) →
      goupnp.performSOAPAction
        (fun _ => .ok (goupnp.RespEnvelope.mk
          (some (goupnp.SOAPFault.mk "s:Client" "UPnPError"
            (some (goupnp.FaultDetail.mk
              (some (goupnp.UPnPErrorDetail.mk "402" "Invalid Args")))))) ""))
        (none : Option (String → Except String Unit)) (.ok "b") =
        .error ("SOAP fault: " ++
          (goupnp.SOAPFault.mk "s:Client" "UPnPError"
            (some (goupnp.FaultDetail.mk
              (some (goupnp.UPnPErrorDetail.mk "402" "Invalid Args"))))).FaultString)) ∧
    (∀ v : Option Unit,
      goupnp.performSOAPAction
        (fun _ => .ok (goupnp.RespEnvelope.mk
          (some (goupnp.SOAPFault.mk "s:Client" "UPnPError"
            (some (goupnp.FaultDetail.mk
              (some (goupnp.UPnPErrorDetail.mk "402" "Invalid Args")))))) ""))
        (none : Option (String → Except String Unit)) (.ok "b") ≠ .ok v) :=
  performSOAPAction_fault
    (fun _ => .ok (goupnp.RespEnvelope.mk
      (some (goupnp.SOAPFault.mk "s:Client" "UPnPError"
        (some (goupnp.FaultDetail.mk
          (some (goupnp.UPnPErrorDetail.mk "402" "Invalid Args")))))) ""))
    none "b" _ _ rfl rfl

/-! ## C7: `Connect` cardinality errors -/

/-- C7: when resolution of the URL succeeds, `Connect` returns the
"no UPnP-enabled gateway found" error on zero endpoints, the
"multiple UPnP-enabled gateways found" error on two or more, and can return
a `Device` only when there is exactly one endpoint. -/
theorem Connect_cardinality (decode : String → Except String goupnp.RootDevice)
    (getIP : String → Except String String) (url : String) (r : goupnp.HTTPResponse)
    (clients : List goupnp.IGDClient)
    (hres : goupnp.IGDClientsByURL decode url r = .ok clients) :
    (clients = [] → upnp.Connect decode getIP url r =
        .error ("no UPnP-enabled gateway found at " ++ url)) ∧
    (2 ≤ clients.length → upnp.Connect decode getIP url r =
        .error ("multiple UPnP-enabled gateways found at " ++ url)) ∧
    (∀ d, upnp.Connect decode getIP url r = .ok d → clients.length = 1) := by
  refine ⟨?_, ?_, ?_⟩
  · rintro rfl
    simp [upnp.Connect, hres]
  · intro h2
    match clients, hres, h2 with
    | c :: c2 :: rest, hres, _ => simp [upnp.Connect, hres]
  · intro d hok
    rcases clients with _ | ⟨c, _ | ⟨c2, rest⟩⟩
    · simp [upnp.Connect, hres] at hok
    · rfl
    · simp [upnp.Connect, hres] at hok

/-- Witness for C7: a description document with no WAN connection service
resolves to zero clients, and `Connect` reports "no UPnP-enabled gateway
found". -/
theorem Connect_cardinality_witness :
    (([] : List goupnp.IGDClient) = [] →
      upnp.Connect (fun _ => .ok (goupnp.RootDevice.mk "http://gw/" (goupnp.Device.mk "dt" "fn" [] [])))
        (fun _ => .ok "192.168.1.2") "http://gw/desc.xml" (.success 200 "<root/>") =
        .error ("no UPnP-enabled gateway found at " ++ "http://gw/desc.xml")) ∧
    (2 ≤ ([] : List goupnp.IGDClient).length →
      upnp.Connect (fun _ => .ok (goupnp.RootDevice.mk "http://gw/" (goupnp.Device.mk "dt" "fn" [] [])))
        (fun _ => .ok "192.168.1.2") "http://gw/desc.xml" (.success 200 "<root/>") =
        .error ("multiple UPnP-enabled gateways found at " ++ "http://gw/desc.xml")) ∧
    (∀ d, upnp.Connect (fun _ => .ok (goupnp.RootDevice.mk "http://gw/" (goupnp.Device.mk "dt" "fn" [] [])))
        (fun _ => .ok "192.168.1.2") "http://gw/desc.xml" (.success 200 "<root/>") = .ok d →
      ([] : List goupnp.IGDClient).length = 1) :=
  Connect_cardinality
    (fun _ => .ok (goupnp.RootDevice.mk "http://gw/" (goupnp.Device.mk "dt" "fn" [] [])))
    (fun _ => .ok "192.168.1.2") "http://gw/desc.xml" (.success 200 "<root/>") []
    (by simp [goupnp.IGDClientsByURL, goupnp.DeviceByURL, goupnp.visit, goupnp.visitList])

/-! ## C2: pre-order service resolution -/

mutual
theorem visit_eq_filter (base : String) : ∀ d : goupnp.Device,
    goupnp.visit base d =
      ((goupnp.preorderServices d).filter
          fun s => goupnp.isWANConnectionService s.ServiceType).map
        fun s => goupnp.IGDClient.mk base s
  | .mk t n ss ds => by
    rw [goupnp.visit, goupnp.preorderServices, List.filter_append, List.map_append,
      visitList_eq_filter base ds,
      filterMap_ite_eq_filter_map (fun s => goupnp.isWANConnectionService s.ServiceType)
        (fun s => goupnp.IGDClient.mk base s) ss]
theorem visitList_eq_filter (base : String) : ∀ ds : List goupnp.Device,
    goupnp.visitList base ds =
      ((goupnp.preorderServicesList ds).filter
          fun s => goupnp.isWANConnectionService s.ServiceType).map
        fun s => goupnp.IGDClient.mk base s
  | [] => rfl
  | d :: ds => by
    rw [goupnp.visitList, goupnp.preorderServicesList, List.filter_append, List.map_append,
      visit_eq_filter base d, visitList_eq_filter base ds]
end

/-- C2: `IGDClientsByURL`'s `visit` equals the pre-order service listing of
the tree, filtered to exactly the three WAN connection service types and
mapped to `IGDClient`s with the root's `URLBase` — so traversal is pre-order
with order preserved, and a client for a service appears iff the service is
in the tree with a matching serviceType. -/
theorem visit_preorder_filter (base : String) (d : goupnp.Device) :
    goupnp.visit base d =
      ((goupnp.preorderServices d).filter
          fun s => goupnp.isWANConnectionService s.ServiceType).map
        (fun s => goupnp.IGDClient.mk base s) ∧
    ∀ c : goupnp.IGDClient, c ∈ goupnp.visit base d ↔
      c.urlBase = base ∧ c.srv ∈ goupnp.preorderServices d ∧
        goupnp.isWANConnectionService c.srv.ServiceType = true := by
  refine ⟨visit_eq_filter base d, fun c => ?_⟩
  rw [visit_eq_filter base d]
  simp only [List.mem_map, List.mem_filter]
  constructor
  · rintro ⟨s, ⟨hs, hw⟩, rfl⟩
    exact ⟨rfl, hs, hw⟩
  · rintro ⟨hb, hs, hw⟩
    exact ⟨c.srv, ⟨hs, hw⟩, by cases c; cases hb; rfl⟩

/-- Witness for C2 at a concrete two-level tree mixing matching and
non-matching service types. -/
theorem visit_preorder_filter_witness :
    goupnp.visit "http://gw/"
        (goupnp.Device.mk "dt" "fn"
          [goupnp.Service.mk "urn:schemas-upnp-org:service:Layer3Forwarding:1" "/l3f"]
          [goupnp.Device.mk "wan" "wan"
            [goupnp.Service.mk "urn:schemas-upnp-org:service:WANIPConnection:1" "/ctl"] []]) =
      ((goupnp.preorderServices
          (goupnp.Device.mk "dt" "fn"
            [goupnp.Service.mk "urn:schemas-upnp-org:service:Layer3Forwarding:1" "/l3f"]
            [goupnp.Device.mk "wan" "wan"
              [goupnp.Service.mk "urn:schemas-upnp-org:service:WANIPConnection:1" "/ctl"] []])).filter
          fun s => goupnp.isWANConnectionService s.ServiceType).map
        (fun s => goupnp.IGDClient.mk "http://gw/" s) ∧
    ∀ c : goupnp.IGDClient, c ∈ goupnp.visit "http://gw/"
        (goupnp.Device.mk "dt" "fn"
          [goupnp.Service.mk "urn:schemas-upnp-org:service:Layer3Forwarding:1" "/l3f"]
          [goupnp.Device.mk "wan" "wan"
            [goupnp.Service.mk "urn:schemas-upnp-org:service:WANIPConnection:1" "/ctl"] []]) ↔
      c.urlBase = "http://gw/" ∧ c.srv ∈ goupnp.preorderServices
        (goupnp.Device.mk "dt" "fn"
          [goupnp.Service.mk "urn:schemas-upnp-org:service:Layer3Forwarding:1" "/l3f"]
          [goupnp.Device.mk "wan" "wan"
            [goupnp.Service.mk "urn:schemas-upnp-org:service:WANIPConnection:1" "/ctl"] []]) ∧
        goupnp.isWANConnectionService c.srv.ServiceType = true :=
  visit_preorder_filter "http://gw/"
    (goupnp.Device.mk "dt" "fn"
      [goupnp.Service.mk "urn:schemas-upnp-org:service:Layer3Forwarding:1" "/l3f"]
      [goupnp.Device.mk "wan" "wan"
        [goupnp.Service.mk "urn:schemas-upnp-org:service:WANIPConnection:1" "/ctl"] []])

/-! ## C4: SSDP deduplication -/

/-- A key is emitted by the SSDP loop iff it is not already in `seen` and
some datagram of the run validates with that key. -/
theorem ssdpLoop_keys (ds : List goupnp.Datagram) : ∀ (seen : List String) (k : String),
    k ∈ (goupnp.ssdpLoop seen ds).map Prod.fst ↔
      k ∉ seen ∧ ∃ d ∈ ds, (goupnp.datagramKeyLoc d).map Prod.fst = some k := by
  induction ds with
  | nil => intro seen k; simp [goupnp.ssdpLoop]
  | cons d ds ih =>
    intro seen k
    cases h : goupnp.datagramKeyLoc d with
    | none =>
      simp only [goupnp.ssdpLoop, h]
      rw [ih seen k]
      simp [h]
    | some kl =>
      obtain ⟨k0, loc0⟩ := kl
      by_cases hk : k0 ∈ seen
      · simp only [goupnp.ssdpLoop, h, if_pos hk]
        rw [ih seen k]
        by_cases hkk : k = k0
        · subst hkk
          simp [h, hk]
        · simp [h, hkk]
          exact fun _ h' => absurd h'.symm hkk
      · simp only [goupnp.ssdpLoop, h, if_neg hk, List.map_cons, List.mem_cons]
        rw [ih (k0 :: seen) k]
        by_cases hkk : k = k0
        · subst hkk
          simp [h, hk]
        · simp [h, hkk, List.mem_cons]
          exact fun _ h' => absurd h'.symm hkk

/-- The keys emitted by one SSDP loop are pairwise distinct. -/
theorem ssdpLoop_keys_nodup (ds : List goupnp.Datagram) : ∀ seen : List String,
    ((goupnp.ssdpLoop seen ds).map Prod.fst).Nodup := by
  induction ds with
  | nil => intro seen; simp [goupnp.ssdpLoop]
  | cons d ds ih =>
    intro seen
    cases h : goupnp.datagramKeyLoc d with
    | none => simpa [goupnp.ssdpLoop, h] using ih seen
    | some kl =>
      obtain ⟨k0, loc0⟩ := kl
      by_cases hk : k0 ∈ seen
      · simpa [goupnp.ssdpLoop, h, hk] using ih seen
      · simp only [goupnp.ssdpLoop, h, if_neg hk, List.map_cons]
        refine List.nodup_cons.2 ⟨?_, ih (k0 :: seen)⟩
        intro hmem
        exact ((ssdpLoop_keys ds (k0 :: seen) k0).1 hmem).1 (List.mem_cons_self _ _)

/-- C4: over one SSDP run, the deduplication keys of the emitted locations
are pairwise distinct, and a key is emitted exactly once when some
well-formed 200 datagram of the run carries it (the `USN` header, or the
location when the `USN` is absent) and never otherwise; each emission
contributes exactly one location to the result. -/
theorem SSDP_dedup (ds : List goupnp.Datagram) (k : String) :
    ((goupnp.ssdpLoop [] ds).map Prod.fst).Nodup ∧
    ((goupnp.ssdpLoop [] ds).map Prod.fst).count k =
      (if ∃ d ∈ ds, (goupnp.datagramKeyLoc d).map Prod.fst = some k then 1 else 0) ∧
    (goupnp.SSDPLocations ds).length = ((goupnp.ssdpLoop [] ds).map Prod.fst).length := by
  refine ⟨ssdpLoop_keys_nodup ds [], ?_, by simp [goupnp.SSDPLocations]⟩
  split
  · next hex =>
    exact List.count_eq_one_of_mem (ssdpLoop_keys_nodup ds [])
      ((ssdpLoop_keys ds [] k).2 ⟨List.not_mem_nil k, hex⟩)
  · next hex =>
    refine List.count_eq_zero_of_not_mem fun hmem => ?_
    exact hex ((ssdpLoop_keys ds [] k).1 hmem).2

/-- Witness for C4: three datagrams — two valid ones sharing a `USN` and one
valid `USN`-less one — yield one emission for each of the two distinct
keys. -/
theorem SSDP_dedup_witness :
    (((goupnp.ssdpLoop []
        [goupnp.Datagram.response 200 (some "http://a/") "uuid:1",
         goupnp.Datagram.response 200 (some "http://a/") "uuid:1",
         goupnp.Datagram.response 200 (some "http://b/") ""]).map Prod.fst).Nodup ∧
      ((goupnp.ssdpLoop []
        [goupnp.Datagram.response 200 (some "http://a/") "uuid:1",
         goupnp.Datagram.response 200 (some "http://a/") "uuid:1",
         goupnp.Datagram.response 200 (some "http://b/") ""]).map Prod.fst).count "uuid:1" =
        (if ∃ d ∈ [goupnp.Datagram.response 200 (some "http://a/") "uuid:1",
                   goupnp.Datagram.response 200 (some "http://a/") "uuid:1",
                   goupnp.Datagram.response 200 (some "http://b/") ""],
            (goupnp.datagramKeyLoc d).map Prod.fst = some "uuid:1" then 1 else 0) ∧
      (goupnp.SSDPLocations
        [goupnp.Datagram.response 200 (some "http://a/") "uuid:1",
         goupnp.Datagram.response 200 (some "http://a/") "uuid:1",
         goupnp.Datagram.response 200 (some "http://b/") ""]).length =
      ((goupnp.ssdpLoop []
        [goupnp.Datagram.response 200 (some "http://a/") "uuid:1",
         goupnp.Datagram.response 200 (some "http://a/") "uuid:1",
         goupnp.Datagram.response 200 (some "http://b/") ""]).map Prod.fst).length) :=
  SSDP_dedup
    [goupnp.Datagram.response 200 (some "http://a/") "uuid:1",
     goupnp.Datagram.response 200 (some "http://a/") "uuid:1",
     goupnp.Datagram.response 200 (some "http://b/") ""] "uuid:1"

/-! ## C6: `Discover`'s WANIP-first ordering -/

/-- The relation `discoverLE` is total. -/
theorem discoverLE_total (a b : upnp.Device) :
    upnp.discoverLE a b ∨ upnp.discoverLE b a := by
  unfold upnp.discoverLE upnp.discoverLess
  by_cases h : upnp.hasWANIP b = upnp.hasWANIP a
  · rw [if_pos h, if_pos h.symm]
    simp only [not_lt]
    exact le_total _ _
  · simp [h, Ne.symm h]
    cases hb : upnp.hasWANIP b <;> cases ha : upnp.hasWANIP a <;> simp_all

/-- The relation `discoverLE` is transitive. -/
theorem discoverLE_trans (a b c : upnp.Device) (hab : upnp.discoverLE a b)
    (hbc : upnp.discoverLE b c) : upnp.discoverLE a c := by
  unfold upnp.discoverLE upnp.discoverLess at *
  cases ha : upnp.hasWANIP a <;> cases hb : upnp.hasWANIP b <;>
    cases hc : upnp.hasWANIP c <;> simp_all [not_lt] <;> exact le_trans hab hbc

/-- What a `discoverLE`-ordered adjacent pair means: the earlier device is
WANIP whenever the later one is, and when they agree the service types are
in lexicographic order. -/
theorem discoverLE_spec (a b : upnp.Device) (h : upnp.discoverLE a b) :
    (upnp.hasWANIP b = true → upnp.hasWANIP a = true) ∧
    (upnp.hasWANIP a = upnp.hasWANIP b →
      a.client.ServiceType ≤ b.client.ServiceType) := by
  unfold upnp.discoverLE upnp.discoverLess at h
  cases ha : upnp.hasWANIP a <;> cases hb : upnp.hasWANIP b <;> simp_all [not_lt]

/-- C6: `Discover`'s output is a permutation of the surviving devices in
which every device whose service type contains `"WANIP"` comes before every
device whose service type does not, and devices agreeing on that test are in
lexicographic service-type order. -/
theorem Discover_ordering (getIP : String → Except String String)
    (clients : List goupnp.IGDClient) :
    (upnp.Discover getIP clients).Pairwise (fun a b =>
      (upnp.hasWANIP b = true → upnp.hasWANIP a = true) ∧
      (upnp.hasWANIP a = upnp.hasWANIP b →
        a.client.ServiceType ≤ b.client.ServiceType)) ∧
    (upnp.Discover getIP clients).Perm
      (clients.filterMap fun c =>
        match getIP c.Location with
        | .ok ip => some (upnp.Device.mk ip c)
        | .error _ => none) := by
  constructor
  · have hs : List.Sorted upnp.discoverLE (upnp.Discover getIP clients) := by
      haveI ht : IsTotal upnp.Device upnp.discoverLE := ⟨discoverLE_total⟩
      haveI htr : IsTrans upnp.Device upnp.discoverLE := ⟨discoverLE_trans⟩
      exact List.sorted_insertionSort upnp.discoverLE _
    exact List.Pairwise.imp (fun h => discoverLE_spec _ _ h) hs
  · exact List.perm_insertionSort upnp.discoverLE _

/-- Witness for C6 at a concrete client list mixing PPP and IP service
types. -/
theorem Discover_ordering_witness :
    (upnp.Discover (fun _ => .ok "192.168.1.2")
        [goupnp.IGDClient.mk "http://a/"
          (goupnp.Service.mk "urn:schemas-upnp-org:service:WANPPPConnection:1" "/p"),
         goupnp.IGDClient.mk "http://b/"
          (goupnp.Service.mk "urn:schemas-upnp-org:service:WANIPConnection:1" "/i")]).Pairwise
      (fun a b =>
        (upnp.hasWANIP b = true → upnp.hasWANIP a = true) ∧
        (upnp.hasWANIP a = upnp.hasWANIP b →
          a.client.ServiceType ≤ b.client.ServiceType)) ∧
    (upnp.Discover (fun _ => .ok "192.168.1.2")
        [goupnp.IGDClient.mk "http://a/"
          (goupnp.Service.mk "urn:schemas-upnp-org:service:WANPPPConnection:1" "/p"),
         goupnp.IGDClient.mk "http://b/"
          (goupnp.Service.mk "urn:schemas-upnp-org:service:WANIPConnection:1" "/i")]).Perm
      (([goupnp.IGDClient.mk "http://a/"
          (goupnp.Service.mk "urn:schemas-upnp-org:service:WANPPPConnection:1" "/p"),
         goupnp.IGDClient.mk "http://b/"
          (goupnp.Service.mk "urn:schemas-upnp-org:service:WANIPConnection:1" "/i")]).filterMap
        fun c =>
          match (fun (_ : String) => (Except.ok "192.168.1.2" : Except String String)) c.Location with
          | .ok ip => some (upnp.Device.mk ip c)
          | .error _ => none) :=
  Discover_ordering (fun _ => .ok "192.168.1.2")
    [goupnp.IGDClient.mk "http://a/"
      (goupnp.Service.mk "urn:schemas-upnp-org:service:WANPPPConnection:1" "/p"),
     goupnp.IGDClient.mk "http://b/"
      (goupnp.Service.mk "urn:schemas-upnp-org:service:WANIPConnection:1" "/i")]


